import Mathlib

set_option maxRecDepth 2000

/-!
Shallow embedding of `src/main.py` (textract-normalizer): the Textract block
graph model, the invoice and prescription parsers, and the quality scorer.
Python floats are modelled as exact rationals, Python `re.search` by a small
backtracking regular-expression engine with leftmost-first semantics and
numbered capture groups, and Python exceptions by `Except PyError`.
-/

/-- Python exception kinds that the modelled code can raise. -/
inductive PyError where
  | typeError
  | valueError
  | keyError
  deriving DecidableEq, Repr

/-- A `datetime.date` value (already validated by the constructor). -/
structure PyDate where
  year : Int
  month : Nat
  day : Nat
  deriving DecidableEq, Repr

/-- Python whitespace for `str.strip` and the regex class `\s` (ASCII part). -/
def isPySpace (c : Char) : Bool :=
  c == ' ' || c == '\t' || c == '\n' || c == '\r' || c == '\x0b' || c == '\x0c'

/-- Model of `str.strip()` on a character list. -/
def pyStripL (l : List Char) : List Char :=
  ((l.dropWhile isPySpace).reverse.dropWhile isPySpace).reverse

/-- Model of `str.strip()`. -/
def pyStrip (s : String) : String := String.mk (pyStripL s.data)

/-- Model of `str.lower()` (ASCII case mapping). -/
def pyLower (s : String) : String := String.mk (s.data.map Char.toLower)

/-- Model of `str.replace(a, b)` for single characters. -/
def pyReplace (s : String) (a b : Char) : String :=
  String.mk (s.data.map (fun c => if c == a then b else c))

/-- Substring test, `needle` appearing contiguously in `hay`. -/
def containsSub (needle : List Char) : List Char → Bool
  | [] => needle.isEmpty
  | c :: t => needle.isPrefixOf (c :: t) || containsSub needle t

/-- Model of the Python membership test `needle in hay` on strings. -/
def strIn (needle hay : String) : Bool := containsSub needle.data hay.data

/-- Numeric value of a list of decimal digits. -/
def digitsVal (l : List Char) : Nat :=
  l.foldl (fun a c => a * 10 + (c.toNat - '0'.toNat)) 0

/-- Model of Python `int(str)`: optional surrounding whitespace and sign,
then at least one decimal digit; anything else raises `ValueError`. -/
def pyIntStr (s : String) : Except PyError Int :=
  let t := pyStripL s.data
  let signAndDigits : Int × List Char :=
    match t with
    | '-' :: r => (-1, r)
    | '+' :: r => (1, r)
    | r => (1, r)
  if signAndDigits.2.isEmpty then .error .valueError
  else if signAndDigits.2.all Char.isDigit then
    .ok (signAndDigits.1 * (digitsVal signAndDigits.2 : Int))
  else .error .valueError

/-- Model of Python `float(str)` restricted to plain decimal literals:
optional surrounding whitespace, optional sign, digits with at most one dot
(at least one digit overall), optional decimal exponent.  Yields `none`
where Python `float` raises `ValueError`. -/
def pyFloat (s : String) : Option ℚ :=
  let t0 := pyStripL s.data
  let signAndRest : ℚ × List Char :=
    match t0 with
    | '-' :: r => (-1, r)
    | '+' :: r => (1, r)
    | r => (1, r)
  let t := signAndRest.2
  let ip := t.takeWhile Char.isDigit
  let t1 := t.dropWhile Char.isDigit
  let fracAndRest : List Char × List Char :=
    match t1 with
    | '.' :: r => (r.takeWhile Char.isDigit, r.dropWhile Char.isDigit)
    | r => ([], r)
  let fp := fracAndRest.1
  if ip.isEmpty && fp.isEmpty then none
  else
    let mant : ℚ := (digitsVal ip : ℚ) + (digitsVal fp : ℚ) / ((10 : ℚ) ^ fp.length)
    match fracAndRest.2 with
    | [] => some (signAndRest.1 * mant)
    | 'e' :: r => pyFloatExp (signAndRest.1 * mant) r
    | 'E' :: r => pyFloatExp (signAndRest.1 * mant) r
    | _ => none
where
  /-- Exponent part of a float literal. -/
  pyFloatExp (m : ℚ) (r : List Char) : Option ℚ :=
    let esignAndDigits : Int × List Char :=
      match r with
      | '-' :: rr => (-1, rr)
      | '+' :: rr => (1, rr)
      | rr => (1, rr)
    if esignAndDigits.2.isEmpty then none
    else if esignAndDigits.2.all Char.isDigit then
      some (m * (10 : ℚ) ^ (esignAndDigits.1 * (digitsVal esignAndDigits.2 : Int)))
    else none

/-- Model of `str.isupper()`: at least one cased character and no lowercase
cased character (ASCII letters are the cased characters appearing here). -/
def pyIsUpper (s : String) : Bool :=
  s.data.any (fun c => c.isUpper || c.isLower) && s.data.all (fun c => !c.isLower)

/-- Gregorian leap-year test as used by `datetime.date`. -/
def isLeapYear (y : Int) : Bool :=
  (y % 4 == 0 && y % 100 != 0) || y % 400 == 0

/-- Days in a month, as validated by the `datetime.date` constructor. -/
def daysInMonth (y : Int) (m : Int) : Int :=
  if m == 2 then (if isLeapYear y then 29 else 28)
  else if m == 4 || m == 6 || m == 9 || m == 11 then 30
  else 31

/-- Model of the `datetime.date(year, month, day)` constructor: raises
`ValueError` unless `1 <= year <= 9999`, `1 <= month <= 12` and
`1 <= day <= days in month`. -/
def mkDate (y m d : Int) : Except PyError PyDate :=
  if 1 ≤ y ∧ y ≤ 9999 ∧ 1 ≤ m ∧ m ≤ 12 ∧ 1 ≤ d ∧ d ≤ daysInMonth y m then
    .ok ⟨y, m.toNat, d.toNat⟩
  else .error .valueError

/-- Model of the source's `date.strftime()` calls: `strftime` is called with
no format argument (`main.py` lines 158, 276, 287), which in Python raises
`TypeError: strftime() takes exactly 1 argument (0 given)`. -/
def strftimeNoArg (_ : PyDate) : Except PyError String := .error .typeError

/-- Python `round(x, 2)` modelled on rationals (round to nearest with half
rounded up; the concrete values evaluated in this file are not ties, so the
tie-breaking mode is immaterial). -/
def round2 (q : ℚ) : ℚ :=
  ((q * 100 + 1 / 2).floor : ℚ) / 100

/-- `statistics.mean` on rationals. -/
def rmean (l : List ℚ) : ℚ := l.sum / (l.length : ℚ)

/-!
A small regular-expression engine with Python `re` semantics for the patterns
appearing in `main.py`: leftmost-first search, ordered alternation, greedy
(backtracking) repetition, and numbered capture groups.
-/

/-- Regular expressions: empty word, single-character class, concatenation,
ordered alternation, greedy star, and a numbered capture group. -/
inductive RE where
  | eps : RE
  | cls : (Char → Bool) → RE
  | seq : RE → RE → RE
  | alt : RE → RE → RE
  | star : RE → RE
  | grp : Nat → RE → RE

/-- Capture environment: group number paired with the captured characters. -/
abbrev Caps := List (Nat × List Char)

/-- A matcher continuation: receives the characters consumed by the current
subpattern, the remaining input and the captures made so far, and either
completes the whole match or fails (`none`), sending the matcher back into
its backtracking alternatives. -/
abbrev REk (α : Type) := List Char → List Char → Caps → Option α

/-- Greedy star in continuation-passing style: try one more iteration of the
body first (it must consume at least one character), fall back to stopping
here.  `fuel ≥` the input length bounds the number of iterations. -/
def reMStar {α : Type} (body : List Char → REk α → Option α) :
    Nat → List Char → REk α → Option α
  | 0, s, k => k [] s []
  | fuel + 1, s, k =>
    match body s (fun c rem g =>
      if c.isEmpty then none
      else reMStar body fuel rem (fun c2 rem2 g2 => k (c ++ c2) rem2 (g ++ g2))) with
    | some v => some v
    | none => k [] s []

/-- Backtracking matcher in continuation-passing style, implementing the
leftmost-first semantics of Python `re`: ordered alternation tries its left
branch with the full continuation and only falls back to the right branch
when the whole remainder of the pattern fails; repetition is greedy. -/
def reM {α : Type} (fuel : Nat) : RE → List Char → REk α → Option α
  | .eps, s, k => k [] s []
  | .cls _, [], _ => none
  | .cls p, c :: rest, k => if p c then k [c] rest [] else none
  | .seq r1 r2, s, k =>
    reM fuel r1 s (fun c1 rem1 g1 =>
      reM fuel r2 rem1 (fun c2 rem2 g2 => k (c1 ++ c2) rem2 (g1 ++ g2)))
  | .alt r1 r2, s, k =>
    match reM fuel r1 s k with
    | some v => some v
    | none => reM fuel r2 s k
  | .grp n r, s, k => reM fuel r s (fun c rem g => k c rem (g ++ [(n, c)]))
  | .star r, s, k => reMStar (reM fuel r) fuel s k

/-- The highest-priority match of `re` against a prefix of `s`:
(matched characters, captures). -/
def reMatchHere (re : RE) (s : List Char) : Option (List Char × Caps) :=
  reM (s.length + 1) re s (fun c _ g => some (c, g))

/-- Leftmost-first search: try each start position in order and take the
highest-priority match there. -/
def reSearchCore (re : RE) : List Char → Option (List Char × Caps)
  | [] => reMatchHere re []
  | c :: t =>
    match reMatchHere re (c :: t) with
    | some a => some a
    | none => reSearchCore re t

/-- Model of `re.search(pattern, s)`: `none` when there is no match,
otherwise the matched text (group 0) and the capture environment. -/
def reSearch (re : RE) (s : String) : Option (List Char × Caps) :=
  reSearchCore re s.data

/-- Truthiness of `re.search(...)` used as a condition. -/
def reTest (re : RE) (s : String) : Bool := (reSearch re s).isSome

/-- `match.group(n)`: `none` when the group did not participate. -/
def capGet (caps : Caps) (n : Nat) : Option String :=
  (caps.find? (fun p => p.1 == n)).map (fun p => String.mk p.2)

/-- Single literal character. -/
def RE.chr (c : Char) : RE := .cls (fun x => x == c)

/-- Single literal character under `re.IGNORECASE` (ASCII case folding). -/
def RE.chrI (c : Char) : RE := .cls (fun x => x.toLower == c.toLower)

/-- Literal string. -/
def RE.lit (s : String) : RE := s.data.foldr (fun c acc => .seq (.chr c) acc) .eps

/-- Literal string under `re.IGNORECASE`. -/
def RE.litI (s : String) : RE := s.data.foldr (fun c acc => .seq (.chrI c) acc) .eps

/-- Ordered alternation of a non-empty pattern list. -/
def RE.alts : List RE → RE
  | [] => .eps
  | [r] => r
  | r :: rest => .alt r (RE.alts rest)

/-- Greedy `?`. -/
def RE.opt (r : RE) : RE := .alt r .eps

/-- Greedy `+`. -/
def RE.plus (r : RE) : RE := .seq r (.star r)

/-- Concatenation of a pattern list. -/
def RE.cat : List RE → RE := fun l => l.foldr .seq .eps

/-- `n` mandatory copies in a row. -/
def RE.nCopies : Nat → RE → RE
  | 0, _ => .eps
  | n + 1, r => .seq r (RE.nCopies n r)

/-- Up to `n` further greedy optional copies. -/
def RE.optChain : Nat → RE → RE
  | 0, _ => .eps
  | n + 1, r => .alt (.seq r (RE.optChain n r)) .eps

/-- Greedy bounded repetition `r{lo,hi}`. -/
def RE.rep (r : RE) (lo hi : Nat) : RE := .seq (RE.nCopies lo r) (RE.optChain (hi - lo) r)

/-- The `\d` class (ASCII digits, as in the source's inputs). -/
def reDigit : RE := .cls Char.isDigit

/-- The `\s` class. -/
def reSpace : RE := .cls isPySpace

/-!
Textract block-graph data model (section 6 input contract): typed nodes with
optional text, confidence and cell indices, plus CHILD relationships.
-/

/-- One entry of a block's `Relationships` list. -/
structure Relationship where
  typ : String
  ids : List String
  deriving DecidableEq, Repr

/-- A Textract block.  Optional fields model dict keys that may be absent. -/
structure Block where
  id : String := ""
  blockType : Option String := none
  text : Option String := none
  confidence : Option ℚ := none
  rowIndex : Option Nat := none
  columnIndex : Option Nat := none
  relationships : List Relationship := []
  deriving DecidableEq, Repr

/-- One flattened OCR line (invoice parser): trimmed text plus confidence. -/
structure OcrLine where
  text : String
  confidence : ℚ
  deriving DecidableEq, Repr

/-- A parsed invoice line item (dataclass `InvoiceLineItem`). -/
structure InvoiceLineItem where
  description : Option String := none
  qty : Option ℚ := none
  unit_price : Option ℚ := none
  total : Option ℚ := none
  deriving DecidableEq, Repr

/-- A date field value: the gated `_find_date` path would store a formatted
string, the fallback path stores the raw `date` object. -/
inductive DateVal where
  | str : String → DateVal
  | date : PyDate → DateVal
  deriving DecidableEq, Repr

/-- The invoice record (dataclass `Invoice`). -/
structure Invoice where
  invoice_number : Option String := none
  issue_date : Option DateVal := none
  due_date : Option DateVal := none
  supplier_name : Option String := none
  currency : Option String := none
  invoice_total : Option ℚ := none
  line_items : List InvoiceLineItem := []
  warnings : List String := []
  quality_score : ℚ := 0
  deriving DecidableEq, Repr

/-- One prescription medication (dataclass `PrescriptionMedication`). -/
structure PrescriptionMedication where
  drug_name : Option String := none
  dosage_text : Option String := none
  frequency_text : Option String := none
  duration_days : Option Nat := none
  quantity : Option Nat := none
  deriving DecidableEq, Repr

/-- The prescription record (dataclass `Prescription`). -/
structure Prescription where
  prescription_date : Option String := none
  prescriber_name : Option String := none
  prescriber_id : Option String := none
  language : String := "it"
  medications : List PrescriptionMedication := []
  notes : Option String := none
  warnings : List String := []
  quality_score : ℚ := 0
  deriving DecidableEq, Repr

/-- Python truthiness of an optional string (`None` and `""` are falsy). -/
def truthyStr (o : Option String) : Bool := o.getD "" != ""

/-- Python truthiness of an optional integer (`None` and `0` are falsy). -/
def truthyNat (o : Option Nat) : Bool := o.getD 0 != 0

/-!
Model of `datetime.strptime(s, "%d/%m/%Y")`: CPython compiles the format to
the regex `(3[01]|[12]\d|0[1-9]|[1-9])/(1[0-2]|0[1-9]|[1-9])/(\d\d\d\d)`,
anchors it at the start, rejects unconverted trailing data, and then builds a
`datetime` (which validates the day against the month). -/

/-- Nonzero decimal digit class `[1-9]`. -/
def reDigitNZ : RE := .cls (fun c => '1' ≤ c && c ≤ '9')

/-- `%d` day field regex `(3[01]|[12]\d|0[1-9]|[1-9])`, capture group 1. -/
def spDayRE : RE := .grp 1 (RE.alts
  [RE.cat [RE.chr '3', .cls (fun c => c == '0' || c == '1')],
   RE.cat [.cls (fun c => c == '1' || c == '2'), reDigit],
   RE.cat [RE.chr '0', reDigitNZ],
   reDigitNZ])

/-- `%m` month field regex `(1[0-2]|0[1-9]|[1-9])`, capture group 2. -/
def spMonthRE : RE := .grp 2 (RE.alts
  [RE.cat [RE.chr '1', .cls (fun c => c == '0' || c == '1' || c == '2')],
   RE.cat [RE.chr '0', reDigitNZ],
   reDigitNZ])

/-- `%Y` year field regex `(\d\d\d\d)`, capture group 3. -/
def spYearRE : RE := .grp 3 (RE.cat [reDigit, reDigit, reDigit, reDigit])

/-- The full compiled `"%d/%m/%Y"` regex. -/
def strptimeDMYRE : RE := RE.cat [spDayRE, RE.chr '/', spMonthRE, RE.chr '/', spYearRE]

/-- `datetime.strptime(s, "%d/%m/%Y").date()`. -/
def strptimeDMY (s : String) : Except PyError PyDate :=
  match reM (s.data.length + 1) strptimeDMYRE s.data (fun c rem g => some (c, rem, g)) with
  | none => .error .valueError
  | some a =>
    if a.2.1.isEmpty then
      match capGet a.2.2 1, capGet a.2.2 2, capGet a.2.2 3 with
      | some d, some m, some y =>
        mkDate (digitsVal y.data : Int) (digitsVal m.data : Int) (digitsVal d.data : Int)
      | _, _, _ => .error .valueError
    else .error .valueError

/-!
Association-list model of small Python dicts keyed by integers, preserving
insertion order with overwrite-in-place (used for table row reconstruction).
-/

/-- `d[k] = v`: overwrite in place, or append a new key. -/
def dictSet {β : Type} : List (Nat × β) → Nat → β → List (Nat × β)
  | [], k, v => [(k, v)]
  | (k0, v0) :: rest, k, v =>
    if k == k0 then (k, v) :: rest else (k0, v0) :: dictSet rest k v

/-- `rows.setdefault(row, dict())[col] = text` in one traversal: update the
column dict of the existing row entry in place, or append a fresh row entry
holding just this cell. -/
def rowsUpd : List (Nat × List (Nat × String)) → Nat → Nat → String →
    List (Nat × List (Nat × String))
  | [], r, c, tx => [(r, [(c, tx)])]
  | (k0, v0) :: rest, r, c, tx =>
    if r == k0 then (k0, dictSet v0 c tx) :: rest
    else (k0, v0) :: rowsUpd rest r c tx

/-- `d.get(k, dflt)`. -/
def dictGetD {β : Type} : List (Nat × β) → Nat → β → β
  | [], _, dflt => dflt
  | (k0, v0) :: rest, k, dflt => if k == k0 then v0 else dictGetD rest k dflt

/-- `d.keys()` in insertion order (distinct by construction). -/
def dictKeys {β : Type} (m : List (Nat × β)) : List Nat := m.map Prod.fst

/-- Insert into an ascending sorted list. -/
def insertAsc (x : Nat) : List Nat → List Nat
  | [] => [x]
  | y :: ys => if x ≤ y then x :: y :: ys else y :: insertAsc x ys

/-- `sorted(...)` on distinct numeric keys (ascending insertion sort). -/
def sortNat (l : List Nat) : List Nat := l.foldr insertAsc []

/-- `" ".join(texts)`. -/
def joinSpace : List String → String
  | [] => ""
  | [s] => s
  | s :: rest => s ++ " " ++ joinSpace rest

/-- The dict comprehension `{b["Id"]: b for b in blocks}` followed by lookup:
the last block with a given id wins. -/
def blockMapGet (blocks : List Block) (i : String) : Option Block :=
  blocks.foldl (fun acc b => if b.id == i then some b else acc) none

namespace TextractNormalizer

/-- The `coverage` term of `calc_quality_score` (`main.py` line 452). -/
def coverage_of (required_fields_found total_required : Nat) : ℚ :=
  if total_required ≠ 0 then (required_fields_found : ℚ) / (total_required : ℚ) else 0

/-- The `validation` term of `calc_quality_score` (`main.py` line 453). -/
def validation_of (coverage : ℚ) : ℚ := if coverage = 1 then 1 else 0.5

/-- `TextractNormalizer.calc_quality_score` (`main.py` lines 449-455). -/
def calc_quality_score (textract_confidences : List ℚ)
    (required_fields_found total_required : Nat) : ℚ :=
  let tex_conf := if textract_confidences.isEmpty then 0 else rmean textract_confidences
  let coverage := coverage_of required_fields_found total_required
  let validation := validation_of coverage
  round2 (0.4 * tex_conf + 0.4 * coverage + 0.2 * validation)

end TextractNormalizer

namespace TextractInvoiceParser

/-- `REQUIRED_FIELDS` (`main.py` line 74). -/
def REQUIRED_FIELDS : List String :=
  ["invoice_number", "issue_date", "supplier_name", "invoice_total"]

/-- `_extract_lines` (`main.py` lines 82-93): every `LINE` block contributes
a trimmed text (`""` when `Text` is absent) and a confidence (0.0 default). -/
def extract_lines (blocks : List Block) : List OcrLine :=
  blocks.foldl (fun lines b =>
    if b.blockType == some "LINE" then
      lines ++ [{ text := pyStrip (b.text.getD ""), confidence := b.confidence.getD 0 }]
    else lines) []

/-- Pattern `(s\.r\.l\.|spa|ltd|inc|marilab|company|sede)` with `re.I`. -/
def supplierRE : RE := RE.alts
  [RE.litI "s.r.l.", RE.litI "spa", RE.litI "ltd", RE.litI "inc",
   RE.litI "marilab", RE.litI "company", RE.litI "sede"]

/-- `_find_supplier_name` (`main.py` lines 137-141): first of the first five
lines matching the company-indicator pattern. -/
def find_supplier_name (lines : List OcrLine) : Option (String × ℚ) :=
  (lines.take 5).findSome? (fun l =>
    if reTest supplierRE l.text then some (l.text, l.confidence) else none)

/-- Pattern `(numero documento|fattura n|invoice number|n\.)` with `re.I`. -/
def invoiceNumKeyRE : RE := RE.alts
  [RE.litI "numero documento", RE.litI "fattura n", RE.litI "invoice number", RE.litI "n."]

/-- Pattern `\d{3,}`. -/
def digitRun3RE : RE := RE.cat [reDigit, reDigit, reDigit, .star reDigit]

/-- `_find_invoice_number` (`main.py` lines 143-149): on a keyword line,
extract the first run of three or more digits; otherwise keep scanning. -/
def find_invoice_number (lines : List OcrLine) : Option (String × ℚ) :=
  lines.findSome? (fun l =>
    if reTest invoiceNumKeyRE l.text then
      match reSearch digitRun3RE l.text with
      | some m => some (String.mk m.1, l.confidence)
      | none => none
    else none)

/-- The two-character class slash-or-hyphen. -/
def dateSepRE : RE := .cls (fun c => c == '/' || c == '-')

/-- Pattern digit{1,2} sep digit{1,2} sep digit{2,4} (sep = slash or hyphen),
all wrapped in capture group 1. -/
def dateNumRE : RE := .grp 1 (RE.cat
  [RE.rep reDigit 1 2, dateSepRE, RE.rep reDigit 1 2, dateSepRE, RE.rep reDigit 2 4])

/-- Keyword pattern `(data documento|issue date)` with `re.I`. -/
def issueKeyRE : RE := RE.alts [RE.litI "data documento", RE.litI "issue date"]

/-- Keyword pattern `(scadenza|due date)` with `re.I`. -/
def dueKeyRE : RE := RE.alts [RE.litI "scadenza", RE.litI "due date"]

/-- The keyword-gated loop of `_find_date` (`main.py` lines 152-162).  On a
keyword line whose date substring parses, the code calls
`...date().strftime()` with no format, so `TypeError` propagates (only
`ValueError` is caught by the `except` clause, which `pass`es on). -/
def find_date_gated (keyRE : RE) : List OcrLine → Except PyError (Option (DateVal × ℚ))
  | [] => .ok none
  | l :: rest =>
    if reTest keyRE l.text then
      match reSearch dateNumRE l.text with
      | some m =>
        match strptimeDMY ((capGet m.2 1).getD "") with
        | .ok d => (strftimeNoArg d).map (fun s => some (.str s, l.confidence))
        | .error _ => find_date_gated keyRE rest
      | none => find_date_gated keyRE rest
    else find_date_gated keyRE rest

/-- The fallback loop of `_find_date` (`main.py` lines 163-173): first line
with a parseable date substring, returning the raw `date` object. -/
def find_date_fallback (lines : List OcrLine) : Option (DateVal × ℚ) :=
  lines.findSome? (fun l =>
    match reSearch dateNumRE l.text with
    | some m =>
      match strptimeDMY ((capGet m.2 1).getD "") with
      | .ok d => some (.date d, l.confidence)
      | .error _ => none
    | none => none)

/-- `_find_date` (`main.py` lines 151-174). -/
def find_date (keyRE : RE) (fallback : Bool) (lines : List OcrLine) :
    Except PyError (Option (DateVal × ℚ)) := do
  match ← find_date_gated keyRE lines with
  | some r => pure (some r)
  | none => if fallback then pure (find_date_fallback lines) else pure none

/-- `_safe_float` (`main.py` lines 240-244): replace commas with dots, then
`float(...)`, with any failure mapped to `None`. -/
def safe_float (val : String) : Option ℚ := pyFloat (pyReplace val ',' '.')

/-- Keyword pattern `(totale|invoice total|importo)` with `re.I`. -/
def totalKeyRE : RE := RE.alts [RE.litI "totale", RE.litI "invoice total", RE.litI "importo"]

/-- Pattern `([€$])?\s?([\d\.,]+)`. -/
def totalAmtRE : RE := RE.cat
  [RE.opt (.grp 1 (.cls (fun c => c == '€' || c == '$'))),
   RE.opt reSpace,
   .grp 2 (RE.plus (.cls (fun c => c.isDigit || c == '.' || c == ',')))]

/-- `_find_total` (`main.py` lines 176-188): scan the lines in reverse; on a
keyword line take the first currency-and-amount match, defaulting the
currency to `"EUR"`, with the amount run through `_safe_float`. -/
def find_total (lines : List OcrLine) : Option (Option ℚ × String × ℚ) :=
  lines.reverse.findSome? (fun l =>
    if reTest totalKeyRE l.text then
      match reSearch totalAmtRE l.text with
      | some m =>
        some (safe_float ((capGet m.2 2).getD ""), (capGet m.2 1).getD "EUR", l.confidence)
      | none => none
    else none)

/-- `_get_text` (`main.py` lines 221-229): join the texts of the cell's
`WORD`/`SELECTION_ELEMENT` children with spaces and strip; a child id absent
from the block map is a `KeyError`. -/
def get_text (cell : Block) (blocks : List Block) : Except PyError String := do
  let texts ← cell.relationships.foldlM (fun (acc : List String) rel =>
    if rel.typ == "CHILD" then
      rel.ids.foldlM (fun (acc2 : List String) cid =>
        match blockMapGet blocks cid with
        | none => .error PyError.keyError
        | some w =>
          if w.blockType == some "WORD" || w.blockType == some "SELECTION_ELEMENT" then
            pure (acc2 ++ [w.text.getD ""])
          else pure acc2) acc
    else pure acc) []
  pure (pyStrip (joinSpace texts))

/-- `_extract_line_items` (`main.py` lines 190-219): for each `TABLE`, group
`CELL` children into rows by `RowIndex`, then emit a line item for every row
with at least four populated columns, in ascending row order. -/
def extract_line_items (blocks : List Block) : Except PyError (List InvoiceLineItem) :=
  blocks.foldlM (fun items b =>
    if b.blockType == some "TABLE" then do
      let rows ← b.relationships.foldlM
        (fun (rows : List (Nat × List (Nat × String))) rel =>
          if rel.typ == "CHILD" then
            rel.ids.foldlM (fun rows cid =>
              match blockMapGet blocks cid with
              | none => .error PyError.keyError
              | some cell =>
                match cell.blockType with
                | none => .error PyError.keyError
                | some bt =>
                  if bt == "CELL" then
                    match cell.rowIndex, cell.columnIndex with
                    | some r, some c => do
                      let text ← get_text cell blocks
                      pure (rowsUpd rows r c text)
                    | _, _ => .error PyError.keyError
                  else pure rows) rows
          else pure rows) []
      pure (items ++ (sortNat (dictKeys rows)).foldl (fun acc r =>
        let row := dictGetD rows r []
        if 4 ≤ row.length then
          acc ++ [{ description := some (dictGetD row 1 ""),
                    qty := safe_float (dictGetD row 2 ""),
                    unit_price := safe_float (dictGetD row 3 ""),
                    total := safe_float (dictGetD row 4 "") }]
        else acc) [])
    else pure items) []

/-- `getattr(self.invoice, f) is None` for the four required field names. -/
def invoiceFieldIsNone (inv : Invoice) : String → Bool
  | "invoice_number" => inv.invoice_number.isNone
  | "issue_date" => inv.issue_date.isNone
  | "supplier_name" => inv.supplier_name.isNone
  | "invoice_total" => inv.invoice_total.isNone
  | _ => false

/-- `_collect_warnings` (`main.py` lines 231-238): one message per required
field that is `None`, in `REQUIRED_FIELDS` order, then the generic message
when fewer than all required fields were found. -/
def collect_warnings (inv : Invoice) (found_fields : Nat) : List String :=
  let warnings := REQUIRED_FIELDS.foldl (fun ws f =>
    if invoiceFieldIsNone inv f then ws ++ ["Missing required field: " ++ f] else ws) []
  if found_fields < REQUIRED_FIELDS.length then
    warnings ++ ["Some key fields not extracted with high confidence"]
  else warnings

/-- The field-extraction part of `_parse_data` (`main.py` lines 95-134):
run the extractors in source order, accumulating confidences and the
found-field count, then attach line items and the quality score.  Returns
the invoice (warnings not yet set) with the final `found_fields` counter. -/
def parse_fields (blocks : List Block) : Except PyError (Invoice × Nat) := do
  let lines := extract_lines blocks
  let supplier := find_supplier_name lines
  let inv_num := find_invoice_number lines
  let issue_date ← find_date issueKeyRE true lines
  let due_date ← find_date dueKeyRE false lines
  let total := find_total lines
  let items ← extract_line_items blocks
  let st : Invoice × List ℚ × Nat := ({}, [], 0)
  let st := match supplier with
    | some (v, c) => ({ st.1 with supplier_name := some v }, st.2.1 ++ [c], st.2.2 + 1)
    | none => st
  let st := match inv_num with
    | some (v, c) => ({ st.1 with invoice_number := some v }, st.2.1 ++ [c], st.2.2 + 1)
    | none => st
  let st := match issue_date with
    | some (v, c) => ({ st.1 with issue_date := some v }, st.2.1 ++ [c], st.2.2 + 1)
    | none => st
  let st := match due_date with
    | some (v, c) => ({ st.1 with due_date := some v }, st.2.1 ++ [c], st.2.2)
    | none => st
  let st := match total with
    | some (amt, cur, c) =>
      ({ st.1 with invoice_total := amt, currency := some cur }, st.2.1 ++ [c], st.2.2 + 1)
    | none => st
  let inv := { st.1 with line_items := items }
  let inv := { inv with quality_score :=
    TextractNormalizer.calc_quality_score st.2.1 st.2.2 REQUIRED_FIELDS.length }
  pure (inv, st.2.2)

/-- `_parse_data` (`main.py` lines 95-135): the extracted fields with the
warnings attached last (`main.py` line 135). -/
def parse_data (blocks : List Block) : Except PyError (Invoice × Nat) :=
  (parse_fields blocks).map (fun r =>
    ({ r.1 with warnings := collect_warnings r.1 r.2 }, r.2))

end TextractInvoiceParser

/-- `TextractNormalizer.normalize_invoice` (`main.py` lines 457-460). -/
def TextractNormalizer.normalize_invoice (blocks : List Block) : Except PyError Invoice :=
  (TextractInvoiceParser.parse_data blocks).map Prod.fst

namespace TextractPrescriptionParser

/-- `_extract_lines` (`main.py` lines 254-259): only `LINE` blocks that carry
a `Text` key contribute, with the raw (untrimmed) text. -/
def extract_lines (blocks : List Block) : List String :=
  blocks.foldl (fun lines b =>
    if b.blockType == some "LINE" && b.text.isSome then lines ++ [b.text.getD ""]
    else lines) []

/-- The three-character class slash, hyphen or dot used by the numeric date
pattern. -/
def presSepRE : RE := .cls (fun c => c == '/' || c == '-' || c == '.')

/-- Numeric date pattern: digit{1,2} sep digit{1,2} sep digit{2,4} with the
three components in capture groups 1-3. -/
def presDatePat1 : RE := RE.cat
  [.grp 1 (RE.rep reDigit 1 2), presSepRE,
   .grp 2 (RE.rep reDigit 1 2), presSepRE,
   .grp 3 (RE.rep reDigit 2 4)]

/-- Word date pattern: digit{1,2} `\s+` letters `\s+` digit{2,4}, components
in capture groups 1-3 (the class `[a-zA-Z]`). -/
def presDatePat2 : RE := RE.cat
  [.grp 1 (RE.rep reDigit 1 2), RE.plus reSpace,
   .grp 2 (RE.plus (.cls (fun c => c.isAlpha))), RE.plus reSpace,
   .grp 3 (RE.rep reDigit 2 4)]

/-- The Italian month-name table of `_parse_date`. -/
def month_map : List (String × Int) :=
  [("gennaio", 1), ("febbraio", 2), ("marzo", 3), ("aprile", 4),
   ("maggio", 5), ("giugno", 6), ("luglio", 7), ("agosto", 8),
   ("settembre", 9), ("ottobre", 10), ("novembre", 11), ("dicembre", 12)]

/-- `month_map.get(month_str.lower())`. -/
def monthMapGet (s : String) : Option Int :=
  (month_map.find? (fun p => p.1 == s)).map Prod.snd

/-- The body of `_parse_date`'s `try` block for one pattern match
(`main.py` lines 270-288).  `ok (some s)` models `return s`; `ok none`
models falling through without a `return` (unknown month name); `error e`
models a raised exception.  Both `return` paths end in `date(...).strftime()`
with no format argument, which raises `TypeError`. -/
def parse_date_attempt (sepPresent : Bool) (caps : Caps) : Except PyError (Option String) :=
  if sepPresent then
    match pyIntStr ((capGet caps 1).getD "") with
    | .error e => .error e
    | .ok day =>
      match pyIntStr ((capGet caps 2).getD "") with
      | .error e => .error e
      | .ok month =>
        match pyIntStr ((capGet caps 3).getD "") with
        | .error e => .error e
        | .ok year =>
          let year :=
            if year < 100 then (if year < 50 then year + 2000 else year + 1900) else year
          match mkDate year month day with
          | .error e => .error e
          | .ok d =>
            match strftimeNoArg d with
            | .error e => .error e
            | .ok s => .ok (some s)
  else
    match pyIntStr ((capGet caps 1).getD "") with
    | .error e => .error e
    | .ok day =>
      match pyIntStr ((capGet caps 3).getD "") with
      | .error e => .error e
      | .ok year =>
        match monthMapGet (pyLower ((capGet caps 2).getD "")) with
        | some month =>
          match mkDate year month day with
          | .error e => .error e
          | .ok d =>
            match strftimeNoArg d with
            | .error e => .error e
            | .ok s => .ok (some s)
        | none => .ok none

/-- The pattern loop of `_parse_date`: first pattern whose match yields a
returned value wins; exceptions (`ValueError`, `TypeError`) are caught and
the loop continues. -/
def parse_date_go (text : String) (sepPresent : Bool) : List RE → Option String
  | [] => none
  | pat :: rest =>
    match reSearch pat text with
    | some m =>
      match parse_date_attempt sepPresent m.2 with
      | .ok (some s) => some s
      | _ => parse_date_go text sepPresent rest
    | none => parse_date_go text sepPresent rest

/-- `_parse_date` (`main.py` lines 261-290).  The numeric-versus-word branch
tests separator characters in the whole line, not in the match. -/
def parse_date (text : String) : Option String :=
  parse_date_go text (strIn "/" text || strIn "-" text || strIn "." text)
    [presDatePat1, presDatePat2]

/-- Quantity patterns of `_parse_quantity` (`main.py` lines 292-298), in
source order, each with the amount in capture group 1 (`re.IGNORECASE`). -/
def quantityPats : List RE :=
  [RE.cat [RE.litI "qta", .star reSpace, RE.opt (RE.chr ':'), .star reSpace,
           .grp 1 (RE.plus reDigit)],
   RE.cat [RE.litI "n.", .star reSpace, .grp 1 (RE.plus reDigit)],
   RE.cat [RE.litI "quantit", .cls (fun c => c.toLower == 'à' || c.toLower == 'a'),
           .star reSpace, RE.opt (RE.chr ':'), .star reSpace, .grp 1 (RE.plus reDigit)],
   RE.cat [.grp 1 (RE.plus reDigit), .star reSpace,
           .grp 2 (RE.alts [RE.litI "compresse", RE.litI "cp", RE.litI "fiale",
                            RE.litI "fl", RE.litI "ml", RE.litI "g", RE.litI "mg",
                            RE.litI "µg"])]]

/-- First pattern in a list that matches and whose group 1 parses as an
integer (`int(...)` failure is caught and the loop continues). -/
def firstIntMatch (text : String) : List RE → Option Int
  | [] => none
  | pat :: rest =>
    match reSearch pat text with
    | some m =>
      match pyIntStr ((capGet m.2 1).getD "") with
      | .ok n => some n
      | .error _ => firstIntMatch text rest
    | none => firstIntMatch text rest

/-- `_parse_quantity` (`main.py` lines 292-307). -/
def parse_quantity (text : String) : Option Int := firstIntMatch text quantityPats

/-- Duration patterns of `_parse_duration` (`main.py` lines 309-314). -/
def durationPats : List RE :=
  [RE.cat [RE.litI "per", .star reSpace, .grp 1 (RE.plus reDigit), .star reSpace,
           RE.litI "giorni"],
   RE.cat [.grp 1 (RE.plus reDigit), .star reSpace, RE.litI "giorni"],
   RE.cat [RE.litI "durata", .star reSpace, RE.opt (RE.chr ':'), .star reSpace,
           .grp 1 (RE.plus reDigit), .star reSpace, RE.litI "g"]]

/-- `_parse_duration` (`main.py` lines 309-323). -/
def parse_duration (text : String) : Option Int := firstIntMatch text durationPats

/-- Frequency patterns of `_parse_frequency` (`main.py` lines 325-331):
number-of-times phrasings, each with the count in capture group 1. -/
def frequencyPats : List RE :=
  [RE.cat [.grp 1 (RE.plus reDigit), .star reSpace, RE.litI "volte", .star reSpace,
           RE.litI "al", .star reSpace, RE.litI "giorno"],
   RE.cat [.grp 1 (RE.plus reDigit), .star reSpace, .cls (fun c => c.toLower == 'x'),
           .star reSpace, RE.litI "die"],
   RE.cat [RE.litI "ogni", .star reSpace, .grp 1 (RE.plus reDigit), .star reSpace,
           RE.litI "ore"],
   RE.cat [.grp 1 (RE.plus reDigit), .star reSpace,
           .cls (fun c => c.toLower == 'c' || c.toLower == 'p'), .star reSpace,
           RE.litI "al", .star reSpace, RE.litI "dì"]]

/-- `_parse_frequency` (`main.py` lines 325-340): normalize the first match
to `"N volte al giorno"`. -/
def parse_frequency (text : String) : Option String :=
  frequencyPats.findSome? (fun pat =>
    (reSearch pat text).map (fun m => ((capGet m.2 1).getD "") ++ " volte al giorno"))

/-- Dosage unit alternation `(mg|ml|g|µg)`. -/
def dosageUnitRE : RE :=
  RE.alts [RE.litI "mg", RE.litI "ml", RE.litI "g", RE.litI "µg"]

/-- Dosage amount `(\d+[\.,]?\d*)`: digits, optional dot-or-comma, digits. -/
def dosageAmountRE : RE := .grp 1 (RE.cat
  [RE.plus reDigit, RE.opt (.cls (fun c => c == '.' || c == ',')), .star reDigit])

/-- Dosage patterns of `_parse_dosage` (`main.py` lines 342-346). -/
def dosagePats : List RE :=
  [RE.cat [dosageAmountRE, .star reSpace, .grp 2 dosageUnitRE],
   RE.cat [RE.litI "dose", .star reSpace, RE.opt (RE.chr ':'), .star reSpace,
           dosageAmountRE, .star reSpace, .grp 2 dosageUnitRE]]

/-- `_parse_dosage` (`main.py` lines 342-357): `"amount unit"` with the
amount's comma replaced by a dot. -/
def parse_dosage (text : String) : Option String :=
  dosagePats.findSome? (fun pat =>
    (reSearch pat text).map (fun m =>
      pyReplace ((capGet m.2 1).getD "") ',' '.' ++ " " ++ ((capGet m.2 2).getD "")))

/-- `_calculate_quality_score` (`main.py` lines 359-374): one point per
filled signal out of five, capped at 1. -/
def calculate_quality_score (p : Prescription) : ℚ :=
  let score : ℚ :=
    (if truthyStr p.prescription_date then 1 else 0) +
    (if truthyStr p.prescriber_name then 1 else 0) +
    (if truthyStr p.prescriber_id then 1 else 0) +
    (if !p.medications.isEmpty then 1 else 0) +
    (if p.medications.any (fun m => truthyStr m.drug_name) then 1 else 0)
  min (score / 5) 1

/-- The date loop of `_parse_data` (`main.py` lines 377-382): first line
containing `"data"` whose `_parse_date` is truthy. -/
def findPrescriptionDate : List String → Option String
  | [] => none
  | l :: rest =>
    if strIn "data" (pyLower l) then
      match parse_date l with
      | some d => some d
      | none => findPrescriptionDate rest
    else findPrescriptionDate rest

/-- Prescriber-name keywords. -/
def prescriberTerms : List String := ["dott", "dr.", "medico", "farmacista"]

/-- Prescriber-id keywords. -/
def idTerms : List String := ["codice fiscale", "cf:", "id"]

/-- Pattern `[A-Z0-9]{11,16}` (no IGNORECASE). -/
def prescriberIdRE : RE :=
  RE.rep (.cls (fun c => c.isUpper || c.isDigit)) 11 16

/-- The prescriber loop of `_parse_data` (`main.py` lines 384-390): both
name and id keep the last matching line (no early break). -/
def findPrescriber (lines : List String) : Option String × Option String :=
  lines.foldl (fun acc l =>
    let pn := if prescriberTerms.any (fun t => strIn t (pyLower l)) then some l else acc.1
    let pid := if idTerms.any (fun t => strIn t (pyLower l)) then
        match reSearch prescriberIdRE l with
        | some m => some (String.mk m.1)
        | none => acc.2
      else acc.2
    (pn, pid)) (none, none)

/-- Medication-header test (`main.py` lines 394-400): fully upper-case line
or a pharmaceutical-form keyword. -/
def medHeader (l : String) : Bool :=
  pyIsUpper l ||
    ["compresse", "capsule", "fiale", "crema", "pomata"].any
      (fun t => strIn t (pyLower l))

/-- One continuation line applied to the current medication (`main.py` lines
406-414): each attribute is re-extracted only while it is still falsy (each
of the four guarded assignments reads just its own attribute). -/
def medStep (m : PrescriptionMedication) (l : String) : PrescriptionMedication :=
  { m with
    dosage_text := if truthyStr m.dosage_text then m.dosage_text else parse_dosage l,
    frequency_text :=
      if truthyStr m.frequency_text then m.frequency_text else parse_frequency l,
    duration_days := if truthyNat m.duration_days then m.duration_days
      else (parse_duration l).map Int.toNat,
    quantity := if truthyNat m.quantity then m.quantity
      else (parse_quantity l).map Int.toNat }

/-- The medication loop of `_parse_data` (`main.py` lines 392-417). -/
def medsLoop (lines : List String) : List PrescriptionMedication :=
  let st : List PrescriptionMedication × Option PrescriptionMedication :=
    lines.foldl (fun st l =>
      if medHeader l then
        (match st.2 with
         | some m => st.1 ++ [m]
         | none => st.1, some { drug_name := some l })
      else
        match st.2 with
        | some m => (st.1, some (medStep m l))
        | none => st) ([], none)
  match st.2 with
  | some m => st.1 ++ [m]
  | none => st.1

/-- `str(x)` for the optional prescription date (Python prints `None`). -/
def pyStrOptDate (o : Option String) : String :=
  match o with
  | some s => s
  | none => "None"

/-- The notes filter of `_parse_data` (`main.py` lines 420-428): keep a line
unless it occurs inside the date's string form, equals the prescriber name
or id, or equals a truthy medication drug name. -/
def notesKeep (p : Prescription) (l : String) : Bool :=
  (!truthyStr p.prescription_date || !strIn l (pyStrOptDate p.prescription_date)) &&
  (!truthyStr p.prescriber_name || l != p.prescriber_name.getD "") &&
  (!truthyStr p.prescriber_id || l != p.prescriber_id.getD "") &&
  !(p.medications.any (fun m => truthyStr m.drug_name && some l == m.drug_name))

/-- `_parse_data` (`main.py` lines 376-442): date, prescriber, medications,
notes, warnings and quality score over the flattened lines. -/
def parse_data (blocks : List Block) : Prescription :=
  let lines := extract_lines blocks
  let p : Prescription := {}
  let p := { p with prescription_date := findPrescriptionDate lines }
  let pr := findPrescriber lines
  let p := { p with prescriber_name := pr.1, prescriber_id := pr.2 }
  let p := { p with medications := medsLoop lines }
  let notes := lines.foldl (fun ns l => if notesKeep p l then ns ++ [l] else ns) []
  let p := if notes.isEmpty then p else { p with notes := some (joinSpace notes) }
  let w : List String := []
  let w := if truthyStr p.prescription_date then w
    else w ++ ["Data della prescrizione non trovata"]
  let w := if truthyStr p.prescriber_name then w
    else w ++ ["Nome del prescrittore non trovato"]
  let w := if p.medications.isEmpty then w ++ ["Nessun farmaco trovato nella prescrizione"]
    else w
  let p := { p with warnings := w }
  { p with quality_score := calculate_quality_score p }

end TextractPrescriptionParser

/-- `TextractNormalizer.normalize_prescription` (`main.py` lines 462-465). -/
def TextractNormalizer.normalize_prescription (blocks : List Block) : Prescription :=
  TextractPrescriptionParser.parse_data blocks

deriving instance DecidableEq for Except

/- The Batteries rational-number operations are irreducible, which blocks
`decide`-style evaluation of the embedded scorer; restore the default
reducibility for this verification development. -/
attribute [local semireducible] Rat.ofScientific Rat.mul Rat.inv Rat.add Rat.sub

/-!
Claim inputs: small well-formed block graphs built from `LINE` blocks.
-/

/-- A `LINE` block with text and confidence, as emitted by Textract. -/
def lineBlock (t : String) (c : ℚ) : Block :=
  { blockType := some "LINE", text := some t, confidence := some c }

/-- A `LINE` block with text only (confidence irrelevant to prescriptions). -/
def rxLineBlock (t : String) : Block :=
  { blockType := some "LINE", text := some t }

/-- C1 failing input: one line matching the supplier heuristic, OCR
confidence 90 (Textract's 0-100 scale). -/
def c1Blocks : List Block := [lineBlock "ACME SpA" 90]

/-- C1: the claim says `quality_score ∈ [0, 1]` for both record types.  The
prescription half holds (`_calculate_quality_score` is `min(score/5, 1)` of
five 0/1 signals), but the invoice half fails: `calc_quality_score` feeds the
mean of raw 0-100 Textract confidences into the 0.4-weighted sum without
normalizing, so a single found field with confidence 90 already yields a
quality score of 36.2. -/
theorem C1_invoice_quality_score_exceeds_one :
    ((TextractNormalizer.normalize_invoice c1Blocks).map Invoice.quality_score =
        .ok (181 / 5) ∧ (1 : ℚ) < 181 / 5) ∧
    ∀ p : Prescription, 0 ≤ TextractPrescriptionParser.calculate_quality_score p ∧
      TextractPrescriptionParser.calculate_quality_score p ≤ 1 := by
  refine ⟨⟨by decide, by norm_num⟩, fun p => ?_⟩
  unfold TextractPrescriptionParser.calculate_quality_score
  refine ⟨le_min ?_ (by norm_num), min_le_right _ _⟩
  split_ifs <;> norm_num

/-- C2 failing input: a well-formed graph whose only line carries the issue
date keyword and a parseable numeric date. -/
def c2Blocks : List Block := [lineBlock "Data documento 01/02/2023" 95]

/-- C2: the claim says the document-parsing path never raises.  It does: in
`_find_date`'s keyword-gated loop a successfully parsed date reaches
`...date().strftime()` with no format argument, raising `TypeError`, which
the surrounding `except ValueError` does not catch, so `normalize_invoice`
propagates the exception instead of returning a record. -/
theorem C2_parse_path_raises_typeerror :
    TextractNormalizer.normalize_invoice c2Blocks = .error .typeError := by
  decide

/-- C4 input: the spec's total-extraction example line with confidence 98.2. -/
def c4Blocks : List Block := [lineBlock "TOTALE € 1.234,56" 98.2]

/-- C4 counterexample: the claim expects `invoice_total = 1234.56`, but
`_safe_float("1.234,56")` turns the comma into a dot giving `"1.234.56"`,
which `float` rejects, so the stored total is `None` (the currency is still
`"€"`). -/
theorem C4_total_counterexample :
    (TextractNormalizer.normalize_invoice c4Blocks).map
        (fun i => (i.invoice_total, i.currency)) = .ok (none, some "€") ∧
    (TextractNormalizer.normalize_invoice c4Blocks).map
        (fun i => (i.invoice_total, i.currency)) ≠ .ok (some (1234.56 : ℚ), some "€") := by
  constructor <;> decide

/-- C4 amended: for the line `"TOTALE € 1.234,56"` (confidence 98.2) total
extraction matches the keyword and the currency symbol `"€"`, but the amount
`"1.234,56"` fails `_safe_float` (comma replaced by dot leaves two dots), so
`invoice_total` is `None` while `currency = "€"` and the match still carries
confidence 98.2 into scoring. -/
theorem C4_total_amended :
    (TextractNormalizer.normalize_invoice c4Blocks).map
        (fun i => (i.invoice_total, i.currency)) = .ok (none, some "€") ∧
    TextractInvoiceParser.safe_float "1.234,56" = none ∧
    TextractInvoiceParser.find_total (TextractInvoiceParser.extract_lines c4Blocks) =
      some (none, "€", 98.2) := by
  refine ⟨by decide, by decide, ?_⟩
  decide

/-- C10 input: supplier, invoice number and date are all extractable, and
the total line matches the keyword but its amount fails numeric parsing. -/
def c10Blocks : List Block :=
  [lineBlock "ACME SpA" 90, lineBlock "Fattura n. 12345" 90,
   lineBlock "15/03/2024" 90, lineBlock "TOTALE € 1.234,56" 98.2]

/-- C10: a matched total line whose amount fails `_safe_float` still counts
toward `found_fields`: with the other three required fields found the final
counter is 4, `invoice_total` is `None` with its missing-field warning, the
generic low-coverage warning is absent, and coverage and validation are both
1. -/
theorem C10_unparsed_total_counts_toward_coverage :
    (TextractInvoiceParser.parse_data c10Blocks).map
        (fun r => (r.1.invoice_total, r.1.warnings, r.2)) =
      .ok (none, ["Missing required field: invoice_total"], 4) ∧
    TextractNormalizer.coverage_of 4 TextractInvoiceParser.REQUIRED_FIELDS.length = 1 ∧
    TextractNormalizer.validation_of 1 = 1 := by
  refine ⟨by decide, by decide, ?_⟩
  decide

/-- C7 input: the spec's medication-grouping scenario lines. -/
def c7Blocks : List Block :=
  [rxLineBlock "AMOXICILLINA", rxLineBlock "500 mg", rxLineBlock "2 volte al giorno",
   rxLineBlock "per 7 giorni", rxLineBlock "ACICLOVIR CREMA",
   rxLineBlock "applicare 2 volte al dì"]

/-- The medications the code actually produces for `c7Blocks`. -/
def c7ActualMeds : List PrescriptionMedication :=
  [{ drug_name := some "AMOXICILLINA", dosage_text := some "500 mg",
     frequency_text := some "2 volte al giorno", duration_days := some 7,
     quantity := some 500 },
   { drug_name := some "ACICLOVIR CREMA" }]

/-- The medications the claim expects for `c7Blocks`. -/
def c7ClaimedMeds : List PrescriptionMedication :=
  [{ drug_name := some "AMOXICILLINA", dosage_text := some "500 mg",
     frequency_text := some "2 volte al giorno", duration_days := some 7 },
   { drug_name := some "ACICLOVIR CREMA", frequency_text := some "2 volte al giorno" }]

/-- C7 counterexample: on the scenario lines the parser does not produce the
claimed medications: the first medication also picks up `quantity = 500`
(the line `"500 mg"` matches the N-units quantity pattern), and the second
gets no `frequency_text` (`"applicare 2 volte al dì"` matches none of the
frequency patterns, whose day-phrase alternative is the single-character
class c-or-p, not `"volte"`). -/
theorem C7_medications_counterexample :
    (TextractNormalizer.normalize_prescription c7Blocks).medications = c7ActualMeds ∧
    c7ActualMeds ≠ c7ClaimedMeds := by
  exact ⟨by decide, by decide⟩

/-- C7 amended: the scenario yields exactly two medications: AMOXICILLINA
with dosage `"500 mg"`, frequency `"2 volte al giorno"`, duration 7 and
quantity 500, and ACICLOVIR CREMA with no other attribute set. -/
theorem C7_medications_amended :
    (TextractNormalizer.normalize_prescription c7Blocks).medications =
      [{ drug_name := some "AMOXICILLINA", dosage_text := some "500 mg",
         frequency_text := some "2 volte al giorno", duration_days := some 7,
         quantity := some 500 },
       { drug_name := some "ACICLOVIR CREMA", dosage_text := none,
         frequency_text := none, duration_days := none, quantity := none }] := by
  decide

/-- C8 counterexample input: a medication header followed by two duration
lines, the first of which parses to the falsy value 0. -/
def c8Blocks : List Block :=
  [rxLineBlock "ANTIBIOTICO", rxLineBlock "per 0 giorni", rxLineBlock "per 7 giorni"]

/-- C8 counterexample: `"per 0 giorni"` sets `duration_days` (and
`quantity`) to 0; because the guards test Python truthiness rather than
`None`-ness, the later line `"per 7 giorni"` overwrites both with 7, so an
attribute set by a continuation line is changed by a later one. -/
theorem C8_overwrite_counterexample :
    (TextractPrescriptionParser.medStep { drug_name := some "ANTIBIOTICO" }
        "per 0 giorni").duration_days = some 0 ∧
    (TextractPrescriptionParser.medStep (TextractPrescriptionParser.medStep
        { drug_name := some "ANTIBIOTICO" } "per 0 giorni") "per 7 giorni").duration_days =
      some 7 ∧
    (TextractNormalizer.normalize_prescription c8Blocks).medications.map
        PrescriptionMedication.duration_days = [some 7] := by
  refine ⟨by decide, by decide, by decide⟩

/-- `medStep` leaves a truthy dosage unchanged. -/
theorem medStep_keeps_dosage (m : PrescriptionMedication) (l : String)
    (h : truthyStr m.dosage_text = true) :
    (TextractPrescriptionParser.medStep m l).dosage_text = m.dosage_text := by
  simp [TextractPrescriptionParser.medStep, h]

/-- `medStep` leaves a truthy frequency unchanged. -/
theorem medStep_keeps_frequency (m : PrescriptionMedication) (l : String)
    (h : truthyStr m.frequency_text = true) :
    (TextractPrescriptionParser.medStep m l).frequency_text = m.frequency_text := by
  simp [TextractPrescriptionParser.medStep, h]

/-- `medStep` leaves a truthy (nonzero) duration unchanged. -/
theorem medStep_keeps_duration (m : PrescriptionMedication) (l : String)
    (h : truthyNat m.duration_days = true) :
    (TextractPrescriptionParser.medStep m l).duration_days = m.duration_days := by
  simp [TextractPrescriptionParser.medStep, h]

/-- `medStep` leaves a truthy (nonzero) quantity unchanged. -/
theorem medStep_keeps_quantity (m : PrescriptionMedication) (l : String)
    (h : truthyNat m.quantity = true) :
    (TextractPrescriptionParser.medStep m l).quantity = m.quantity := by
  simp [TextractPrescriptionParser.medStep, h]

/-- C8 amended: over any run of continuation lines, an attribute that holds
a truthy value (a non-empty string for dosage/frequency, a nonzero number
for duration/quantity) is never overwritten; only falsy values (`None`, `0`,
`""`) can be replaced by later lines. -/
theorem C8_truthy_attributes_never_overwritten (m : PrescriptionMedication)
    (ls : List String) :
    (∀ s, m.dosage_text = some s → s ≠ "" →
      (ls.foldl TextractPrescriptionParser.medStep m).dosage_text = some s) ∧
    (∀ s, m.frequency_text = some s → s ≠ "" →
      (ls.foldl TextractPrescriptionParser.medStep m).frequency_text = some s) ∧
    (∀ n, m.duration_days = some n → n ≠ 0 →
      (ls.foldl TextractPrescriptionParser.medStep m).duration_days = some n) ∧
    (∀ n, m.quantity = some n → n ≠ 0 →
      (ls.foldl TextractPrescriptionParser.medStep m).quantity = some n) := by
  induction ls generalizing m with
  | nil =>
    exact ⟨fun s h _ => by simpa using h, fun s h _ => by simpa using h,
      fun n h _ => by simpa using h, fun n h _ => by simpa using h⟩
  | cons l ls ih =>
    refine ⟨fun s h hs => ?_, fun s h hs => ?_, fun n h hn => ?_, fun n h hn => ?_⟩ <;>
      simp only [List.foldl_cons]
    · exact (ih _).1 s
        (by rw [medStep_keeps_dosage m l (by simp [truthyStr, h, hs]), h]) hs
    · exact (ih _).2.1 s
        (by rw [medStep_keeps_frequency m l (by simp [truthyStr, h, hs]), h]) hs
    · exact (ih _).2.2.1 n
        (by rw [medStep_keeps_duration m l (by simp [truthyNat, h, hn]), h]) hn
    · exact (ih _).2.2.2 n
        (by rw [medStep_keeps_quantity m l (by simp [truthyNat, h, hn]), h]) hn

/-- A fully-truthy medication used to witness the C8 invariant. -/
def c8WitnessMed : PrescriptionMedication :=
  { drug_name := some "ANTIBIOTICO", dosage_text := some "500 mg",
    frequency_text := some "2 volte al giorno", duration_days := some 7,
    quantity := some 2 }

/-- Witness for the C8 invariant at a concrete medication and line list. -/
theorem C8_truthy_attributes_never_overwritten_witness :
    (["per 3 giorni"].foldl TextractPrescriptionParser.medStep c8WitnessMed).dosage_text =
        some "500 mg" ∧
    (["per 3 giorni"].foldl TextractPrescriptionParser.medStep c8WitnessMed).duration_days =
        some 7 :=
  ⟨(C8_truthy_attributes_never_overwritten c8WitnessMed ["per 3 giorni"]).1 "500 mg" rfl
      (by decide),
    (C8_truthy_attributes_never_overwritten c8WitnessMed ["per 3 giorni"]).2.2.1 7 rfl
      (by decide)⟩

/-- C9 counterexample input: a single `LINE` block carrying no `Text` key. -/
def c9Blocks : List Block := [{ blockType := some "LINE" }]

/-- C9 counterexample: the claim says both parsers keep an entry for every
`LINE` node, with a missing `Text` becoming empty text.  That holds for the
invoice flattener but not the prescription one, which skips `LINE` blocks
without a `Text` key, so its line sequence has no entry for this node. -/
theorem C9_prescription_drops_textless_line :
    TextractPrescriptionParser.extract_lines c9Blocks = [] ∧
    c9Blocks.countP (fun b => b.blockType == some "LINE") = 1 ∧
    TextractInvoiceParser.extract_lines c9Blocks = [{ text := "", confidence := 0 }] := by
  refine ⟨by decide, by decide, by decide⟩

/-- Folding append-if over a list is filtering and mapping it. -/
theorem foldl_append_ite {α β : Type} (p : α → Bool) (g : α → β) (l : List α)
    (acc : List β) :
    l.foldl (fun acc2 a => if p a then acc2 ++ [g a] else acc2) acc =
      acc ++ l.filterMap (fun a => if p a then some (g a) else none) := by
  induction l generalizing acc with
  | nil => simp
  | cons a l ih => by_cases h : p a <;> simp [h, ih]

/-- C9 amended: the invoice flattener keeps exactly the `LINE` blocks (text
trimmed, `""` when `Text` is absent, confidence defaulting to 0), while the
prescription flattener keeps exactly the `LINE` blocks that carry a `Text`
key, with their raw text, dropping `LINE` nodes without one. -/
theorem C9_flattener_amended (blocks : List Block) :
    TextractInvoiceParser.extract_lines blocks =
      blocks.filterMap (fun b =>
        if b.blockType == some "LINE" then
          some { text := pyStrip (b.text.getD ""), confidence := b.confidence.getD 0 }
        else none) ∧
    TextractPrescriptionParser.extract_lines blocks =
      blocks.filterMap (fun b =>
        if b.blockType == some "LINE" && b.text.isSome then some (b.text.getD "")
        else none) := by
  constructor
  · exact foldl_append_ite _ _ blocks []
  · exact foldl_append_ite _ _ blocks []

/-- The warning loop in closed form: one message per required field that is
`None`, in `REQUIRED_FIELDS` order, then the generic message exactly when
`found < 4`. -/
theorem collect_warnings_spec (inv : Invoice) (found : Nat) :
    TextractInvoiceParser.collect_warnings inv found =
      (TextractInvoiceParser.REQUIRED_FIELDS.filter
          (fun f => TextractInvoiceParser.invoiceFieldIsNone inv f)).map
        (fun f => "Missing required field: " ++ f) ++
      (if found < TextractInvoiceParser.REQUIRED_FIELDS.length then
        ["Some key fields not extracted with high confidence"] else []) := by
  unfold TextractInvoiceParser.collect_warnings
  cases h1 : TextractInvoiceParser.invoiceFieldIsNone inv "invoice_number" <;>
    cases h2 : TextractInvoiceParser.invoiceFieldIsNone inv "issue_date" <;>
      cases h3 : TextractInvoiceParser.invoiceFieldIsNone inv "supplier_name" <;>
        cases h4 : TextractInvoiceParser.invoiceFieldIsNone inv "invoice_total" <;>
          simp [TextractInvoiceParser.REQUIRED_FIELDS, h1, h2, h3, h4] <;>
            split <;> simp

/-- C5: for every successfully parsed invoice, the warnings are exactly one
missing-field message per `None` required field, in required-field order,
followed by the generic low-coverage message exactly when fewer than four
required fields were found, and nothing else. -/
theorem C5_warnings_shape (blocks : List Block) (inv : Invoice) (found : Nat)
    (h : TextractInvoiceParser.parse_data blocks = .ok (inv, found)) :
    inv.warnings =
      (TextractInvoiceParser.REQUIRED_FIELDS.filter
          (fun f => TextractInvoiceParser.invoiceFieldIsNone inv f)).map
        (fun f => "Missing required field: " ++ f) ++
      (if found < TextractInvoiceParser.REQUIRED_FIELDS.length then
        ["Some key fields not extracted with high confidence"] else []) := by
  unfold TextractInvoiceParser.parse_data at h
  cases hp : TextractInvoiceParser.parse_fields blocks with
  | error e => rw [hp] at h; simp [Except.map] at h
  | ok r =>
    rw [hp] at h
    simp only [Except.map, Except.ok.injEq, Prod.mk.injEq] at h
    obtain ⟨hinv, hfound⟩ := h
    subst hfound
    rw [← hinv]
    simp [collect_warnings_spec, TextractInvoiceParser.REQUIRED_FIELDS,
      TextractInvoiceParser.invoiceFieldIsNone]

/-- C5 witness input. -/
def c5Blocks : List Block := [lineBlock "ACME SpA" 90]

/-- The invoice the parser produces for `c5Blocks`. -/
def c5Invoice : Invoice :=
  { supplier_name := some "ACME SpA",
    warnings := ["Missing required field: invoice_number",
                 "Missing required field: issue_date",
                 "Missing required field: invoice_total",
                 "Some key fields not extracted with high confidence"],
    quality_score := 181 / 5 }

/-- Witness for C5 at a concrete block graph. -/
theorem C5_warnings_shape_witness :
    c5Invoice.warnings =
      (TextractInvoiceParser.REQUIRED_FIELDS.filter
          (fun f => TextractInvoiceParser.invoiceFieldIsNone c5Invoice f)).map
        (fun f => "Missing required field: " ++ f) ++
      (if 1 < TextractInvoiceParser.REQUIRED_FIELDS.length then
        ["Some key fields not extracted with high confidence"] else []) :=
  C5_warnings_shape c5Blocks c5Invoice 1 (by decide)

/-- No branch of `_parse_date`'s `try` body can return a value: every
`return` goes through `date(...).strftime()` with no format argument, which
raises `TypeError` (caught by the surrounding `except`). -/
theorem parse_date_attempt_no_return (sep : Bool) (caps : Caps) (s : String) :
    TextractPrescriptionParser.parse_date_attempt sep caps ≠ .ok (some s) := by
  unfold TextractPrescriptionParser.parse_date_attempt
  repeat' split
  all_goals intro hEq
  all_goals simp_all [strftimeNoArg]
  all_goals repeat' split at hEq
  all_goals simp_all

/-- The pattern loop of `_parse_date` never produces a date. -/
theorem parse_date_go_none (text : String) (sep : Bool) (pats : List RE) :
    TextractPrescriptionParser.parse_date_go text sep pats = none := by
  induction pats with
  | nil => rfl
  | cons p rest ih =>
    unfold TextractPrescriptionParser.parse_date_go
    cases hm : reSearch p text with
    | none => exact ih
    | some m =>
      cases ha : TextractPrescriptionParser.parse_date_attempt sep m.2 with
      | error e => simp [ha, ih]
      | ok o =>
        cases o with
        | none => simp [ha, ih]
        | some s => exact absurd ha (parse_date_attempt_no_return sep m.2 s)

/-- `_parse_date` always returns `None`. -/
theorem parse_date_none (text : String) :
    TextractPrescriptionParser.parse_date text = none := by
  unfold TextractPrescriptionParser.parse_date
  exact parse_date_go_none text _ _

/-- The date loop of the prescription parser never finds a date. -/
theorem findPrescriptionDate_none (lines : List String) :
    TextractPrescriptionParser.findPrescriptionDate lines = none := by
  induction lines with
  | nil => rfl
  | cons l rest ih =>
    unfold TextractPrescriptionParser.findPrescriptionDate
    simp [parse_date_none, ih]

/-- Every parsed prescription has `prescription_date = None`. -/
theorem prescription_date_always_none (blocks : List Block) :
    (TextractNormalizer.normalize_prescription blocks).prescription_date = none := by
  unfold TextractNormalizer.normalize_prescription TextractPrescriptionParser.parse_data
  simp only [findPrescriptionDate_none]
  split <;> rfl

/-- C3 invoice input: the documented gated issue-date line. -/
def c3InvoiceBlocks : List Block := [lineBlock "Data documento 15/03/2024" 99]

/-- C3 prescription input: the documented Italian month-name date line. -/
def c3RxBlocks : List Block := [rxLineBlock "Data: 15 marzo 2024"]

/-- C3: neither documented case resolves to 2024-03-15.  On the invoice,
`"Data documento 15/03/2024"` parses and then crashes with `TypeError` in
the formatting call; on the prescription, the same `strftime()` slip is
caught, so `"Data: 15 marzo 2024"` (and indeed every input) yields no date
at all. -/
theorem C3_date_parsing_never_resolves :
    TextractNormalizer.normalize_invoice c3InvoiceBlocks = .error .typeError ∧
    (TextractNormalizer.normalize_prescription c3RxBlocks).prescription_date = none ∧
    ∀ text : String, TextractPrescriptionParser.parse_date text = none :=
  ⟨by decide, prescription_date_always_none c3RxBlocks, parse_date_none⟩



/-- A table cell block at (row, column) with a single word child. -/
def c6Cell (r c : Nat) (cid wid : String) : Block :=
  { id := cid, blockType := some "CELL", rowIndex := some r, columnIndex := some c,
    relationships := [⟨"CHILD", [wid]⟩] }

/-- A word block carrying a cell's text. -/
def c6Word (wid : String) (txt : String) : Block :=
  { id := wid, blockType := some "WORD", text := some txt }

/-- C6 input family: one TABLE whose CHILD cells form three rows with four
populated columns (at arbitrary row indices `r1, r2, r3`, filled with
arbitrary texts `t i c` for the `i`-th row in ascending order) and one row
with only three populated columns (index `r4`, texts `u c`).  The cells are
emitted in the scrambled row order `r3, r1, r4, r2`, so ascending output
order really comes from the sort. -/
def c6BlocksFam (t : Nat → Nat → String) (u : Nat → String) (r1 r2 r3 r4 : Nat) :
    List Block :=
  [{ id := "tab", blockType := some "TABLE",
     relationships := [⟨"CHILD",
       ["c31", "c32", "c33", "c34", "c11", "c12", "c13", "c14",
        "c41", "c42", "c43", "c21", "c22", "c23", "c24"]⟩] },
   c6Cell r3 1 "c31" "w31", c6Cell r3 2 "c32" "w32",
   c6Cell r3 3 "c33" "w33", c6Cell r3 4 "c34" "w34",
   c6Cell r1 1 "c11" "w11", c6Cell r1 2 "c12" "w12",
   c6Cell r1 3 "c13" "w13", c6Cell r1 4 "c14" "w14",
   c6Cell r4 1 "c41" "w41", c6Cell r4 2 "c42" "w42", c6Cell r4 3 "c43" "w43",
   c6Cell r2 1 "c21" "w21", c6Cell r2 2 "c22" "w22",
   c6Cell r2 3 "c23" "w23", c6Cell r2 4 "c24" "w24",
   c6Word "w31" (t 3 1), c6Word "w32" (t 3 2), c6Word "w33" (t 3 3), c6Word "w34" (t 3 4),
   c6Word "w11" (t 1 1), c6Word "w12" (t 1 2), c6Word "w13" (t 1 3), c6Word "w14" (t 1 4),
   c6Word "w41" (u 1), c6Word "w42" (u 2), c6Word "w43" (u 3),
   c6Word "w21" (t 2 1), c6Word "w22" (t 2 2), c6Word "w23" (t 2 3), c6Word "w24" (t 2 4)]

/-- The row dictionary the table loop accumulates for `c6BlocksFam`, as the
chain of `rowsUpd` updates in cell-emission order. -/
def c6Rows (t : Nat → Nat → String) (u : Nat → String) (r1 r2 r3 r4 : Nat) :
    List (Nat × List (Nat × String)) :=
  rowsUpd (rowsUpd (rowsUpd (rowsUpd (rowsUpd (rowsUpd (rowsUpd (rowsUpd (rowsUpd
    (rowsUpd (rowsUpd (rowsUpd (rowsUpd (rowsUpd (rowsUpd []
    r3 1 (pyStrip (t 3 1))) r3 2 (pyStrip (t 3 2)))
    r3 3 (pyStrip (t 3 3))) r3 4 (pyStrip (t 3 4)))
    r1 1 (pyStrip (t 1 1))) r1 2 (pyStrip (t 1 2)))
    r1 3 (pyStrip (t 1 3))) r1 4 (pyStrip (t 1 4)))
    r4 1 (pyStrip (u 1))) r4 2 (pyStrip (u 2))) r4 3 (pyStrip (u 3)))
    r2 1 (pyStrip (t 2 1))) r2 2 (pyStrip (t 2 2)))
    r2 3 (pyStrip (t 2 3))) r2 4 (pyStrip (t 2 4))

set_option maxHeartbeats 4000000 in
/-- Evaluating `_extract_line_items` on the family graph: the block and word
traversal is fully concrete, leaving the row dictionary `c6Rows` and the
sorted emission loop over it. -/
theorem c6_reduce (t : Nat → Nat → String) (u : Nat → String) (r1 r2 r3 r4 : Nat) :
    TextractInvoiceParser.extract_line_items (c6BlocksFam t u r1 r2 r3 r4) =
      .ok ((sortNat (dictKeys (c6Rows t u r1 r2 r3 r4))).foldl (fun acc r =>
        let row := dictGetD (c6Rows t u r1 r2 r3 r4) r []
        if 4 ≤ row.length then
          acc ++ [{ description := some (dictGetD row 1 ""),
                    qty := TextractInvoiceParser.safe_float (dictGetD row 2 ""),
                    unit_price := TextractInvoiceParser.safe_float (dictGetD row 3 ""),
                    total := TextractInvoiceParser.safe_float (dictGetD row 4 "") }]
        else acc) []) := rfl

/-- The row dictionary in closed form: rows appear in first-seen order
`r3, r1, r4, r2`, each holding its column texts. -/
theorem c6Rows_val (t : Nat → Nat → String) (u : Nat → String) (r1 r2 r3 r4 : Nat)
    (n13 : r1 ≠ r3) (n43 : r4 ≠ r3) (n41 : r4 ≠ r1)
    (n23 : r2 ≠ r3) (n21 : r2 ≠ r1) (n24 : r2 ≠ r4) :
    c6Rows t u r1 r2 r3 r4 =
      [(r3, [(1, pyStrip (t 3 1)), (2, pyStrip (t 3 2)),
             (3, pyStrip (t 3 3)), (4, pyStrip (t 3 4))]),
       (r1, [(1, pyStrip (t 1 1)), (2, pyStrip (t 1 2)),
             (3, pyStrip (t 1 3)), (4, pyStrip (t 1 4))]),
       (r4, [(1, pyStrip (u 1)), (2, pyStrip (u 2)), (3, pyStrip (u 3))]),
       (r2, [(1, pyStrip (t 2 1)), (2, pyStrip (t 2 2)),
             (3, pyStrip (t 2 3)), (4, pyStrip (t 2 4))])] := by
  simp [c6Rows, rowsUpd, dictSet, n13, n43, n41, n23, n21, n24]

/-- The line item reconstructed from a row's four cell texts. -/
def c6Item (row : Nat → String) : InvoiceLineItem :=
  { description := some (pyStrip (row 1)),
    qty := TextractInvoiceParser.safe_float (pyStrip (row 2)),
    unit_price := TextractInvoiceParser.safe_float (pyStrip (row 3)),
    total := TextractInvoiceParser.safe_float (pyStrip (row 4)) }

/-- C6: for every choice of cell texts and of ascending row indices
`r1 < r2 < r3 < r4`, the table whose cells form three 4-column rows (at
`r1, r2, r3`) and one 3-column row (at `r4`), emitted in the scrambled order
`r3, r1, r4, r2`, reconstructs to exactly three line items, ordered by
ascending row index; the row with only three populated columns produces no
item. -/
theorem C6_table_three_rows (t : Nat → Nat → String) (u : Nat → String)
    (r1 r2 r3 r4 : Nat) (h12 : r1 < r2) (h23 : r2 < r3) (h34 : r3 < r4) :
    TextractInvoiceParser.extract_line_items (c6BlocksFam t u r1 r2 r3 r4) =
      .ok [c6Item (t 1), c6Item (t 2), c6Item (t 3)] := by
  have h13 : r1 < r3 := h12.trans h23
  have h14 : r1 < r4 := h13.trans h34
  have h24 : r2 < r4 := h23.trans h34
  rw [c6_reduce, c6Rows_val t u r1 r2 r3 r4 (Nat.ne_of_lt h13)
    (Nat.ne_of_lt h34).symm (Nat.ne_of_lt h14).symm (Nat.ne_of_lt h23)
    (Nat.ne_of_lt h12).symm (Nat.ne_of_lt h24)]
  simp [dictKeys, sortNat, insertAsc, dictGetD, c6Item,
    Nat.ne_of_lt h12, (Nat.ne_of_lt h12).symm, Nat.ne_of_lt h13,
    (Nat.ne_of_lt h13).symm, Nat.ne_of_lt h14, (Nat.ne_of_lt h14).symm,
    Nat.ne_of_lt h23, (Nat.ne_of_lt h23).symm, Nat.ne_of_lt h24,
    (Nat.ne_of_lt h24).symm, Nat.ne_of_lt h34, (Nat.ne_of_lt h34).symm,
    Nat.le_of_lt h12, Nat.le_of_lt h34,
    Nat.not_le_of_lt h24, Nat.not_le_of_lt h13, Nat.not_le_of_lt h23]

/-- Concrete cell texts for the C6 witness. -/
def c6WitnessText (i c : Nat) : String :=
  "row" ++ String.mk (Nat.toDigits 10 i) ++ "col" ++ String.mk (Nat.toDigits 10 c)

/-- Concrete partial-row texts for the C6 witness. -/
def c6WitnessPartial (c : Nat) : String := "part" ++ String.mk (Nat.toDigits 10 c)

/-- Witness for C6 at concrete row indices 1 < 2 < 3 < 4 and concrete
texts. -/
theorem C6_table_three_rows_witness :
    ((1 : Nat) < 2 ∧ (2 : Nat) < 3 ∧ (3 : Nat) < 4) ∧
    TextractInvoiceParser.extract_line_items
        (c6BlocksFam c6WitnessText c6WitnessPartial 1 2 3 4) =
      .ok [c6Item (c6WitnessText 1), c6Item (c6WitnessText 2), c6Item (c6WitnessText 3)] :=
  ⟨⟨by decide, by decide, by decide⟩,
    C6_table_three_rows c6WitnessText c6WitnessPartial 1 2 3 4
      (by decide) (by decide) (by decide)⟩
